import Mathlib

/-!
Shallow embedding of the content-safety validation pipeline in
`src/ga1/q27/main.py`: the prompt-injection classifier, the spam classifier,
the output sanitizer, the in-memory rate limiter and the `validate_input`
orchestrator, together with proofs of the specified properties.
-/

namespace Q27

/-- The double-quote character, code point 34. -/
def quoteCh : Char := Char.ofNat 34

/-- The apostrophe character, code point 39. -/
def apostCh : Char := Char.ofNat 39

/-- The ASCII uppercase-to-lowercase map of Python `str.lower`, as a table. -/
def lowerTable : List (Char × Char) :=
  [('A', 'a'), ('B', 'b'), ('C', 'c'), ('D', 'd'), ('E', 'e'), ('F', 'f'),
   ('G', 'g'), ('H', 'h'), ('I', 'i'), ('J', 'j'), ('K', 'k'), ('L', 'l'),
   ('M', 'm'), ('N', 'n'), ('O', 'o'), ('P', 'p'), ('Q', 'q'), ('R', 'r'),
   ('S', 's'), ('T', 't'), ('U', 'u'), ('V', 'v'), ('W', 'w'), ('X', 'x'),
   ('Y', 'y'), ('Z', 'z')]

/-- ASCII lowercasing of one character, as Python `str.lower` acts on the
ASCII letters appearing in the rule tables; other characters are unchanged. -/
def lowerCh (c : Char) : Char :=
  ((lowerTable.find? fun p => p.1 == c).map Prod.snd).getD c

/-- The 29 code points CPython's `str.isspace` (and hence `str.strip` with no
argument) treats as whitespace: tab through carriage return, the file/group/
record/unit separators 0x1C-0x1F, space, NEL, no-break space, Ogham space
mark, the U+2000 block, line and paragraph separators, narrow no-break
space, medium mathematical space and ideographic space. -/
def pySpaceCodes : List Nat :=
  [0x09, 0x0a, 0x0b, 0x0c, 0x0d, 0x1c, 0x1d, 0x1e, 0x1f, 0x20,
   0x85, 0xa0, 0x1680, 0x2000, 0x2001, 0x2002, 0x2003, 0x2004, 0x2005,
   0x2006, 0x2007, 0x2008, 0x2009, 0x200a, 0x2028, 0x2029, 0x202f,
   0x205f, 0x3000]

/-- Whitespace test of Python `str.strip`. -/
def isPySpace (c : Char) : Bool := pySpaceCodes.contains c.toNat

/-- True when the input is empty after trimming whitespace, i.e. Python
`not s.strip()`. -/
def blank (s : String) : Bool := s.data.all isPySpace

/-- Case-insensitive prefix test: the pattern (given in lowercase) against
the lowercased text. -/
def prefixCI : List Char → List Char → Bool
  | [], _ => true
  | _ :: _, [] => false
  | p :: ps, c :: cs => p == lowerCh c && prefixCI ps cs

/-- Substring occurrence test (Python `in`, or `re.search` of a literal)
over character lists. -/
def containsSub (needle : List Char) : List Char → Bool
  | [] => needle.isEmpty
  | c :: rest => needle.isPrefixOf (c :: rest) || containsSub needle rest

/-- `PROMPT_INJECTION_PATTERNS` from `main.py`.  Each regex there is a
lowercase literal phrase with optional groups, so `re.search` of it succeeds
exactly when one of its finitely many expansions occurs as a substring of the
lowercased text; each entry lists the expansions of one pattern. -/
def PROMPT_INJECTION_PATTERNS : List (List String) :=
  [["ignore instructions", "ignore all instructions",
    "ignore previous instructions", "ignore all previous instructions"],
   ["developer mode"],
   ["act as"],
   ["you are now"],
   ["override system", "override the system"],
   ["reveal system prompt", "reveal your system prompt"],
   ["show hidden instructions"],
   ["jailbreak"],
   ["bypass safety"],
   ["pretend to be"],
   ["disable safety"],
   ["system prompt"],
   ["switch to admin"]]

/-- `SPAM_KEYWORDS` from `main.py`. -/
def SPAM_KEYWORDS : List String :=
  ["lottery", "bitcoin", "crypto", "investment opportunity",
   "make money", "win prize", "click here", "limited offer"]

/-- `re.search` of one pattern (given as its expansion list) in
already-lowercased text. -/
def matchesPattern (textLower : List Char) (alts : List String) : Bool :=
  alts.any fun a => containsSub a.data textLower

/-- The number of injection patterns matching the lowercased text: the loop
in `detect_prompt_injection` tests every pattern and sums the hits. -/
def countInjectionMatches (text : String) : Nat :=
  PROMPT_INJECTION_PATTERNS.countP (matchesPattern (text.data.map lowerCh))

/-- The number of spam keywords occurring in the lowercased text, as the
generator sum in `detect_spam` computes it. -/
def countSpamMatches (text : String) : Nat :=
  SPAM_KEYWORDS.countP fun w => containsSub w.data (text.data.map lowerCh)

/-- `detect_prompt_injection` from `main.py`.  Confidence arithmetic is over
exact rationals; the Python floats stand for these exact decimal values. -/
def detect_prompt_injection (text : String) : Bool × ℚ × String :=
  let hits := PROMPT_INJECTION_PATTERNS.countP (matchesPattern (text.data.map lowerCh))
  if hits > 0 then
    (true, min 1.0 (0.9 + (hits : ℚ) * 0.03), "Prompt injection attempt detected")
  else
    (false, 0.0, "No prompt injection detected")

/-- `detect_spam` from `main.py`. -/
def detect_spam (text : String) : Bool × ℚ × String :=
  let hits := SPAM_KEYWORDS.countP fun w => containsSub w.data (text.data.map lowerCh)
  if hits > 1 then
    (true, min 1.0 (0.75 + (hits : ℚ) * 0.05), "Spam patterns detected")
  else
    (false, 0.0, "No spam detected")

/-- One character of Python `html.escape` (quote=True): the five sequential
replacements, ampersand first, amount to this character map. -/
def escChar (c : Char) : List Char :=
  if c = '&' then "&amp;".data
  else if c = '<' then "&lt;".data
  else if c = '>' then "&gt;".data
  else if c = quoteCh then "&quot;".data
  else if c = apostCh then "&#x27;".data
  else [c]

/-- Python `html.escape` over a character list. -/
def htmlEscapeList (l : List Char) : List Char := (l.map escChar).flatten

/-- Python `html.escape` on strings. -/
def htmlEscape (s : String) : String := ⟨htmlEscapeList s.data⟩

def scriptOpen : List Char := "<script".data

def scriptClose : List Char := "</script>".data

/-- Remainder after the first `>`: the lazy `.*?>` of the script regex
(DOTALL, so any character may precede it). -/
def findGt : List Char → Option (List Char)
  | [] => none
  | c :: rest => if c = '>' then some rest else findGt rest

/-- Remainder after the earliest case-insensitive `</script>`: the lazy tail
of the script regex. -/
def findClose : List Char → Option (List Char)
  | [] => none
  | c :: rest =>
    if prefixCI scriptClose (c :: rest) then some ((c :: rest).drop scriptClose.length)
    else findClose rest

/-- Whether the regex `<script.*?>.*?</script>` (IGNORECASE|DOTALL) matches
starting at the head of `l`; on success, the remainder after the match.
Lazy quantifiers take the first `>` and the earliest `</script>` after it;
if no `</script>` follows the first `>` none follows a later one either, so
no further backtracking arises. -/
def matchScriptAt (l : List Char) : Option (List Char) :=
  if prefixCI scriptOpen l then
    match findGt (l.drop scriptOpen.length) with
    | some l2 => findClose l2
    | none => none
  else none

/-- The `re.sub` scan deleting every script match.  Fuel bounds the
recursion; with fuel set to the list length it never runs out, because every
match consumes at least one character. -/
def stripScriptAux : Nat → List Char → List Char
  | 0, l => l
  | _ + 1, [] => []
  | fuel + 1, c :: rest =>
    match matchScriptAt (c :: rest) with
    | some r => stripScriptAux fuel r
    | none => c :: stripScriptAux fuel rest

/-- Python `\w` on ASCII text. -/
def isWordChar (c : Char) : Bool := c.isAlphanum || c = '_'

/-- Remainder after the closing quote: the lazy `.*?"` of the handler regex,
compiled without DOTALL, so `.` does not cross a newline. -/
def findQuote : List Char → Option (List Char)
  | [] => none
  | c :: rest =>
    if c = quoteCh then some rest
    else if c = '\n' then none
    else findQuote rest

/-- Whether the regex `on\w+=".*?"` (IGNORECASE) matches at the head of `l`.
`\w+` is greedy, and since `=` is not a word character its extent is exactly
the maximal word-character run. -/
def matchHandlerAt (l : List Char) : Option (List Char) :=
  if prefixCI "on".data l then
    let l1 := l.drop 2
    let w := l1.takeWhile isWordChar
    if w.isEmpty then none
    else
      match l1.drop w.length with
      | '=' :: c2 :: l3 => if c2 = quoteCh then findQuote l3 else none
      | _ => none
  else none

/-- The `re.sub` scan deleting every inline-event-handler match. -/
def stripHandlersAux : Nat → List Char → List Char
  | 0, l => l
  | _ + 1, [] => []
  | fuel + 1, c :: rest =>
    match matchHandlerAt (c :: rest) with
    | some r => stripHandlersAux fuel r
    | none => c :: stripHandlersAux fuel rest

/-- `sanitize_output` from `main.py`: `html.escape`, then the script-tag
`re.sub`, then the event-handler `re.sub`. -/
def sanitize_output (text : String) : String :=
  let s1 := htmlEscapeList text.data
  let s2 := stripScriptAux s1.length s1
  ⟨stripHandlersAux s2.length s2⟩

/-- `MAX_REQUESTS` from `main.py`. -/
def MAX_REQUESTS : Nat := 20

/-- The `RATE_LIMIT` dict: a per-identity counter, absent keys reading 0. -/
abbrev RateState := String → Nat

/-- The module-level `RATE_LIMIT = {}` at process start. -/
def initState : RateState := fun _ => 0

/-- `check_rate_limit` from `main.py`: increment the caller's counter, then
flag whether it now exceeds `MAX_REQUESTS` (the flag models the raised
429 exception). -/
def check_rate_limit (st : RateState) (userId : String) : RateState × Bool :=
  let st2 : RateState := fun v => if v = userId then st v + 1 else st v
  (st2, decide (MAX_REQUESTS < st2 userId))

/-- `ValidationRequest` from `main.py`. -/
structure ValidationRequest where
  userId : String
  input : String
  category : String

/-- `ValidationResponse` from `main.py`. -/
structure ValidationResponse where
  blocked : Bool
  reason : String
  sanitizedOutput : Option String
  confidence : ℚ
deriving DecidableEq

/-- Outcome of one `validate_input` call: a response, or an `HTTPException`
with its status code and detail string. -/
inductive VResult where
  | ok (resp : ValidationResponse)
  | error (statusCode : Nat) (detail : String)
deriving DecidableEq

/-- Python `round(x, 2)`.  Every value the endpoint rounds is an integer
number of hundredths, where all rounding modes agree, so round-half-up
stands in for Python's round-half-even. -/
def roundTo2 (q : ℚ) : ℚ := ((round (100 * q) : ℤ) : ℚ) / 100

/-- `validate_input` from `main.py`: category enforcement, rate limiting,
the empty-input shortcut, the two classifiers in order, and sanitization of
the all-clear output. -/
def validate_input (st : RateState) (req : ValidationRequest) : RateState × VResult :=
  if req.category ≠ "Prompt Injection" then (st, .error 400 "Invalid category")
  else
    let rl := check_rate_limit st req.userId
    if rl.2 then (rl.1, .error 429 "Too many requests")
    else if blank req.input then
      (rl.1, .ok ⟨false, "Empty input", some "", 0.0⟩)
    else
      let pi := detect_prompt_injection req.input
      if pi.1 then (rl.1, .ok ⟨true, pi.2.2, none, roundTo2 pi.2.1⟩)
      else
        let sp := detect_spam req.input
        if sp.1 then (rl.1, .ok ⟨true, sp.2.2, none, roundTo2 sp.2.1⟩)
        else
          (rl.1, .ok ⟨false, "Input passed all security checks",
                      some (sanitize_output req.input), 0.95⟩)

/-- The spam scenario input from the specification. -/
def spamScenario : String := "Win the lottery! Bitcoin investment opportunity, click here!"

/-- The XSS scenario input from the specification. -/
def xssScenario : String := "<script>alert(1)</script>Hello"

/-- A sequence of validation calls for one identity, all with the accepted
category, threading the rate-limiter state. -/
def runCalls (u : String) : List String → RateState → RateState
  | [], st => st
  | inp :: rest, st => runCalls u rest (validate_input st ⟨u, inp, "Prompt Injection"⟩).1

/-- The characters `html.escape` rewrites. -/
def escapable : List Char := ['&', '<', '>', quoteCh, apostCh]

/-! ### Character-level lemmas -/

theorem lowerCh_eq_lt (c : Char) (h : lowerCh c = '<') : c = '<' := by
  unfold lowerCh at h
  cases hf : lowerTable.find? fun p => p.1 == c with
  | none => rw [hf] at h; exact h
  | some p =>
    rw [hf] at h
    have h : p.2 = '<' := h
    have hmem : p ∈ lowerTable := List.mem_of_find?_eq_some hf
    have hno : ∀ q ∈ lowerTable, q.2 ≠ '<' := by decide
    exact absurd h (hno p hmem)

theorem lowerCh_space (c : Char) (h : isPySpace c = true) : lowerCh c = c := by
  unfold lowerCh
  cases hf : lowerTable.find? fun p => p.1 == c with
  | none => rfl
  | some p =>
    exfalso
    have hpc : p.1 = c := by
      have h1 := List.find?_some hf
      simpa using h1
    have hmem : p ∈ lowerTable := List.mem_of_find?_eq_some hf
    have hno : ∀ q ∈ lowerTable, isPySpace q.1 = false := by decide
    rw [← hpc, hno p hmem] at h
    exact Bool.noConfusion h

theorem prefixCI_head (p : Char) (ps : List Char) (c : Char) (cs : List Char)
    (h : prefixCI (p :: ps) (c :: cs) = true) : p = lowerCh c := by
  unfold prefixCI at h
  simp only [Bool.and_eq_true, beq_iff_eq] at h
  exact h.1

/-! ### The script-stripping pass is the identity on text without a raw angle bracket -/

theorem matchScriptAt_none (c : Char) (rest : List Char) (hc : c ≠ '<') :
    matchScriptAt (c :: rest) = none := by
  have hp : prefixCI scriptOpen (c :: rest) = false := by
    cases hpc : prefixCI scriptOpen (c :: rest) with
    | false => rfl
    | true =>
      have h1 : scriptOpen = '<' :: "script".data := by decide
      rw [h1] at hpc
      exact absurd (lowerCh_eq_lt c (prefixCI_head _ _ _ _ hpc).symm) hc
  simp [matchScriptAt, hp]

theorem stripScriptAux_id (fuel : Nat) (l : List Char) (h : ∀ c ∈ l, c ≠ '<') :
    stripScriptAux fuel l = l := by
  induction fuel generalizing l with
  | zero => rfl
  | succ n ih =>
    cases l with
    | nil => rfl
    | cons c rest =>
      rw [stripScriptAux, matchScriptAt_none c rest (h c (by simp)),
        ih rest (fun x hx => h x (by simp [hx]))]

/-! ### The handler-stripping pass is the identity on text without a raw quote -/

theorem matchHandlerAt_none (l : List Char) (h : ∀ c ∈ l, c ≠ quoteCh) :
    matchHandlerAt l = none := by
  unfold matchHandlerAt
  by_cases h0 : prefixCI "on".data l = true
  case neg => rw [if_neg h0]
  rw [if_pos h0]
  by_cases hw : ((l.drop 2).takeWhile isWordChar).isEmpty = true
  case pos => rw [if_pos hw]
  rw [if_neg hw]
  split
  next c2 l3 heq =>
    have hmem : c2 ∈ l := by
      have h1 : c2 ∈ (l.drop 2).drop ((l.drop 2).takeWhile isWordChar).length := by
        rw [heq]; simp
      exact List.drop_subset _ _ (List.drop_subset _ _ h1)
    rw [if_neg (h c2 hmem)]
  next => rfl

theorem stripHandlersAux_id (fuel : Nat) (l : List Char) (h : ∀ c ∈ l, c ≠ quoteCh) :
    stripHandlersAux fuel l = l := by
  induction fuel generalizing l with
  | zero => rfl
  | succ n ih =>
    cases l with
    | nil => rfl
    | cons c rest =>
      rw [stripHandlersAux, matchHandlerAt_none (c :: rest) h,
        ih rest (fun x hx => h x (by simp [hx]))]

/-! ### Escaped output has no raw angle bracket or quote, so the two
regex-sub passes of the sanitizer never fire after escaping -/

theorem escChar_no_lt_quote (c x : Char) (hx : x ∈ escChar c) :
    x ≠ '<' ∧ x ≠ quoteCh := by
  unfold escChar at hx
  split_ifs at hx with h1 h2 h3 h4 h5
  · simp only [show "&amp;".data = ['&', 'a', 'm', 'p', ';'] from by decide,
      List.mem_cons, List.not_mem_nil, or_false] at hx
    rcases hx with hx | hx | hx | hx | hx <;> subst hx <;> exact ⟨by decide, by decide⟩
  · simp only [show "&lt;".data = ['&', 'l', 't', ';'] from by decide,
      List.mem_cons, List.not_mem_nil, or_false] at hx
    rcases hx with hx | hx | hx | hx <;> subst hx <;> exact ⟨by decide, by decide⟩
  · simp only [show "&gt;".data = ['&', 'g', 't', ';'] from by decide,
      List.mem_cons, List.not_mem_nil, or_false] at hx
    rcases hx with hx | hx | hx | hx <;> subst hx <;> exact ⟨by decide, by decide⟩
  · simp only [show "&quot;".data = ['&', 'q', 'u', 'o', 't', ';'] from by decide,
      List.mem_cons, List.not_mem_nil, or_false] at hx
    rcases hx with hx | hx | hx | hx | hx | hx <;> subst hx <;> exact ⟨by decide, by decide⟩
  · simp only [show "&#x27;".data = ['&', '#', 'x', '2', '7', ';'] from by decide,
      List.mem_cons, List.not_mem_nil, or_false] at hx
    rcases hx with hx | hx | hx | hx | hx | hx <;> subst hx <;> exact ⟨by decide, by decide⟩
  · simp only [List.mem_singleton] at hx
    subst hx
    exact ⟨h2, h4⟩

theorem htmlEscapeList_no_lt_quote (l : List Char) (x : Char)
    (hx : x ∈ htmlEscapeList l) : x ≠ '<' ∧ x ≠ quoteCh := by
  unfold htmlEscapeList at hx
  rw [List.mem_flatten] at hx
  obtain ⟨s, hs, hxs⟩ := hx
  rw [List.mem_map] at hs
  obtain ⟨c, _, rfl⟩ := hs
  exact escChar_no_lt_quote c x hxs

/-- After `html.escape`, the two `re.sub` passes of `sanitize_output` delete
nothing: the sanitizer coincides with `html.escape`. -/
theorem sanitize_eq_htmlEscape (s : String) : sanitize_output s = htmlEscape s := by
  have h1 : stripScriptAux (htmlEscapeList s.data).length (htmlEscapeList s.data) =
      htmlEscapeList s.data :=
    stripScriptAux_id _ _ fun c hc => (htmlEscapeList_no_lt_quote s.data c hc).1
  calc sanitize_output s
      = ⟨stripHandlersAux (stripScriptAux (htmlEscapeList s.data).length
          (htmlEscapeList s.data)).length
          (stripScriptAux (htmlEscapeList s.data).length (htmlEscapeList s.data))⟩ := rfl
    _ = htmlEscape s := by
        rw [h1, stripHandlersAux_id _ _
          fun c hc => (htmlEscapeList_no_lt_quote s.data c hc).2]
        rfl

theorem htmlEscapeList_id (l : List Char) (h : ∀ c ∈ l, c ∉ escapable) :
    htmlEscapeList l = l := by
  induction l with
  | nil => rfl
  | cons c rest ih =>
    have hc := h c (by simp)
    have hesc : escChar c = [c] := by
      unfold escChar
      rw [if_neg, if_neg, if_neg, if_neg, if_neg] <;>
        (intro he; exact hc (by simp [escapable, he]))
    simp only [htmlEscapeList, List.map_cons, List.flatten_cons, hesc, List.singleton_append]
    rw [show (List.map escChar rest).flatten = htmlEscapeList rest from rfl,
      ih fun x hx => h x (List.mem_cons_of_mem _ hx)]

/-! ### Escaping strictly lengthens any text containing an escapable
character, so the sanitizer is not idempotent on such text -/

theorem escChar_length_ge (c : Char) : 1 ≤ (escChar c).length := by
  unfold escChar
  split_ifs <;> first | decide | simp

theorem amp_mem_escChar (c : Char) (h : c ∈ escapable) : '&' ∈ escChar c := by
  have hall : ∀ d ∈ escapable, '&' ∈ escChar d := by decide
  exact hall c h

theorem amp_mem_htmlEscapeList (l : List Char) (c : Char) (hc : c ∈ l)
    (he : c ∈ escapable) : '&' ∈ htmlEscapeList l := by
  unfold htmlEscapeList
  rw [List.mem_flatten]
  exact ⟨escChar c, List.mem_map_of_mem _ hc, amp_mem_escChar c he⟩

theorem htmlEscapeList_length_ge (l : List Char) :
    l.length ≤ (htmlEscapeList l).length := by
  induction l with
  | nil => simp [htmlEscapeList]
  | cons c rest ih =>
    rw [show htmlEscapeList (c :: rest) = escChar c ++ htmlEscapeList rest from rfl,
      List.length_append, List.length_cons]
    have h1 := escChar_length_ge c
    omega

theorem htmlEscapeList_length_gt (l : List Char) (h : '&' ∈ l) :
    l.length < (htmlEscapeList l).length := by
  induction l with
  | nil => simp at h
  | cons c rest ih =>
    rw [show htmlEscapeList (c :: rest) = escChar c ++ htmlEscapeList rest from rfl,
      List.length_append, List.length_cons]
    rcases List.mem_cons.mp h with rfl | hrest
    · have h1 : (escChar '&').length = 5 := by decide
      have h2 := htmlEscapeList_length_ge rest
      omega
    · have h1 := escChar_length_ge c
      have h2 := ih hrest
      omega

/-! ### Classifier characterizations -/

/-- The injection classifier, written through the match count. -/
theorem detect_pi_eq (t : String) :
    detect_prompt_injection t =
      if 0 < countInjectionMatches t then
        (true, min 1.0 (0.9 + (countInjectionMatches t : ℚ) * 0.03),
         "Prompt injection attempt detected")
      else (false, 0.0, "No prompt injection detected") := rfl

/-- The spam classifier, written through the keyword count. -/
theorem detect_spam_eq (t : String) :
    detect_spam t =
      if 1 < countSpamMatches t then
        (true, min 1.0 (0.75 + (countSpamMatches t : ℚ) * 0.05),
         "Spam patterns detected")
      else (false, 0.0, "No spam detected") := rfl

theorem detect_pi_blocked_iff (t : String) :
    (detect_prompt_injection t).1 = true ↔ 0 < countInjectionMatches t := by
  rw [detect_pi_eq]
  by_cases hm : 0 < countInjectionMatches t <;> simp [hm]

theorem detect_pi_reason_of_blocked (t : String)
    (h : (detect_prompt_injection t).1 = true) :
    (detect_prompt_injection t).2.2 = "Prompt injection attempt detected" := by
  rw [detect_pi_eq]
  rw [detect_pi_blocked_iff] at h
  rw [if_pos h]

theorem detect_spam_blocked_iff (t : String) :
    (detect_spam t).1 = true ↔ 1 < countSpamMatches t := by
  rw [detect_spam_eq]
  by_cases hm : 1 < countSpamMatches t <;> simp [hm]

theorem detect_spam_reason_of_blocked (t : String)
    (h : (detect_spam t).1 = true) :
    (detect_spam t).2.2 = "Spam patterns detected" := by
  rw [detect_spam_eq]
  rw [detect_spam_blocked_iff] at h
  rw [if_pos h]

/-! ### A text matching an injection pattern is not blank -/

theorem containsSub_head_mem (c : Char) (ns hay : List Char)
    (h : containsSub (c :: ns) hay = true) : c ∈ hay := by
  induction hay with
  | nil => simp [containsSub, List.isEmpty] at h
  | cons a rest ih =>
    simp only [containsSub, Bool.or_eq_true] at h
    rcases h with h | h
    · rw [List.isPrefixOf_cons₂, Bool.and_eq_true, beq_iff_eq] at h
      exact h.1 ▸ List.mem_cons_self a rest
    · exact List.mem_cons_of_mem a (ih h)

theorem pi_blocked_not_blank (t : String)
    (h : (detect_prompt_injection t).1 = true) : blank t = false := by
  rw [detect_pi_blocked_iff] at h
  cases hb : blank t with
  | false => rfl
  | true =>
    exfalso
    unfold countInjectionMatches at h
    rw [List.countP_pos_iff] at h
    obtain ⟨alts, halts, hmatch⟩ := h
    unfold matchesPattern at hmatch
    rw [List.any_eq_true] at hmatch
    obtain ⟨a, ha, hsub⟩ := hmatch
    have hhead : ∃ c cs, a.data = c :: cs ∧ isPySpace c = false := by
      have hall : PROMPT_INJECTION_PATTERNS.all
          (fun alts => alts.all fun a =>
            match a.data with
            | [] => false
            | c :: _ => !isPySpace c) = true := by decide
      have h1 := (List.all_eq_true.mp ((List.all_eq_true.mp hall) alts halts)) a ha
      rcases hd : a.data with _ | ⟨c, cs⟩
      · rw [hd] at h1; simp at h1
      · rw [hd] at h1
        simp only [Bool.not_eq_true'] at h1
        exact ⟨c, cs, rfl, h1⟩
    obtain ⟨c, cs, hd, hcspace⟩ := hhead
    rw [hd] at hsub
    have hcmem : c ∈ t.data.map lowerCh := containsSub_head_mem c cs _ hsub
    rw [List.mem_map] at hcmem
    obtain ⟨c0, hc0, hlow⟩ := hcmem
    have h0 : isPySpace c0 = true := by
      unfold blank at hb
      exact (List.all_eq_true.mp hb) c0 hc0
    rw [lowerCh_space c0 h0] at hlow
    rw [hlow] at h0
    rw [h0] at hcspace
    exact absurd hcspace (by decide)

/-! ### Orchestrator characterization -/

theorem validate_cat (st : RateState) (req : ValidationRequest)
    (h : req.category ≠ "Prompt Injection") :
    validate_input st req = (st, .error 400 "Invalid category") := by
  unfold validate_input
  rw [if_pos h]

/-- One equation capturing `validate_input` on an accepted-category request:
the counter is incremented first, then the rate gate, the empty-input
shortcut, the injection classifier, the spam classifier and sanitization
apply in order. -/
theorem validate_eq (st : RateState) (u inp : String) :
    validate_input st ⟨u, inp, "Prompt Injection"⟩ =
      (fun v => if v = u then st v + 1 else st v,
       if MAX_REQUESTS < st u + 1 then VResult.error 429 "Too many requests"
       else if blank inp then VResult.ok ⟨false, "Empty input", some "", 0.0⟩
       else if (detect_prompt_injection inp).1 then
         VResult.ok ⟨true, (detect_prompt_injection inp).2.2, none,
                     roundTo2 (detect_prompt_injection inp).2.1⟩
       else if (detect_spam inp).1 then
         VResult.ok ⟨true, (detect_spam inp).2.2, none, roundTo2 (detect_spam inp).2.1⟩
       else VResult.ok ⟨false, "Input passed all security checks",
                        some (sanitize_output inp), 0.95⟩) := by
  unfold validate_input check_rate_limit
  rw [if_neg (by simp :
    ¬ (ValidationRequest.mk u inp "Prompt Injection").category ≠ "Prompt Injection")]
  by_cases hr : MAX_REQUESTS < st u + 1
  · simp [hr]
  · simp only [ValidationRequest.mk.injEq, if_pos rfl, hr, decide_eq_true_eq, if_false,
      iff_false, decide_eq_false hr]
    rw [if_neg (by simpa using hr)]
    repeat' split
    all_goals rfl

/-- Every successful verdict arises from one of the four terminal branches. -/
theorem validate_ok_cases (st : RateState) (req : ValidationRequest)
    (r : ValidationResponse) (h : (validate_input st req).2 = VResult.ok r) :
    (blank req.input = true ∧ r = ⟨false, "Empty input", some "", 0.0⟩) ∨
    ((detect_prompt_injection req.input).1 = true ∧
      r = ⟨true, "Prompt injection attempt detected", none,
           roundTo2 (detect_prompt_injection req.input).2.1⟩) ∨
    ((detect_prompt_injection req.input).1 = false ∧ (detect_spam req.input).1 = true ∧
      r = ⟨true, "Spam patterns detected", none, roundTo2 (detect_spam req.input).2.1⟩) ∨
    ((detect_prompt_injection req.input).1 = false ∧ (detect_spam req.input).1 = false ∧
      blank req.input = false ∧
      r = ⟨false, "Input passed all security checks",
           some (sanitize_output req.input), 0.95⟩) := by
  obtain ⟨u, inp, cat⟩ := req
  by_cases hcat : cat = "Prompt Injection"
  case neg =>
    rw [validate_cat st _ (by simpa using hcat)] at h
    simp at h
  case pos =>
    subst hcat
    rw [validate_eq] at h
    dsimp only at h
    by_cases hr : MAX_REQUESTS < st u + 1
    · rw [if_pos hr] at h; simp at h
    rw [if_neg hr] at h
    by_cases hb : blank inp = true
    · rw [if_pos hb] at h
      exact Or.inl ⟨hb, (VResult.ok.inj h).symm⟩
    rw [if_neg hb] at h
    by_cases hpi : (detect_prompt_injection inp).1 = true
    · rw [if_pos hpi] at h
      refine Or.inr (Or.inl ⟨hpi, ?_⟩)
      rw [← VResult.ok.inj h, detect_pi_reason_of_blocked inp hpi]
    rw [if_neg hpi] at h
    by_cases hsp : (detect_spam inp).1 = true
    · rw [if_pos hsp] at h
      refine Or.inr (Or.inr (Or.inl ⟨Bool.not_eq_true _ ▸ hpi, hsp, ?_⟩))
      rw [← VResult.ok.inj h, detect_spam_reason_of_blocked inp hsp]
    rw [if_neg hsp] at h
    exact Or.inr (Or.inr (Or.inr ⟨Bool.not_eq_true _ ▸ hpi, Bool.not_eq_true _ ▸ hsp,
      Bool.not_eq_true _ ▸ hb, (VResult.ok.inj h).symm⟩))

/-- The counter for `u` grows by exactly one per accepted-category call. -/
theorem runCalls_counter (u : String) (inps : List String) :
    ∀ st : RateState, runCalls u inps st u = st u + inps.length := by
  induction inps with
  | nil => intro st; simp [runCalls]
  | cons i rest ih =>
    intro st
    simp only [runCalls]
    rw [ih, validate_eq]
    dsimp only
    rw [if_pos rfl]
    simp only [List.length_cons]
    omega

/-! ### Claims -/

/-- Claim C1: every verdict produced by a validate call satisfies exactly one
of blocked with no sanitized output, or not blocked with a sanitized output
present (possibly the empty string). -/
theorem C1_verdict_exclusive (st : RateState) (req : ValidationRequest)
    (r : ValidationResponse) (h : (validate_input st req).2 = VResult.ok r) :
    Xor' (r.blocked = true ∧ r.sanitizedOutput = none)
         (r.blocked = false ∧ r.sanitizedOutput ≠ none) := by
  rcases validate_ok_cases st req r h with
    ⟨_, rfl⟩ | ⟨_, rfl⟩ | ⟨_, _, rfl⟩ | ⟨_, _, _, rfl⟩
  · exact Or.inr ⟨⟨rfl, by simp⟩, by simp⟩
  · exact Or.inl ⟨⟨rfl, rfl⟩, by simp⟩
  · exact Or.inl ⟨⟨rfl, rfl⟩, by simp⟩
  · exact Or.inr ⟨⟨rfl, by simp⟩, by simp⟩

theorem C1_witness :
    Xor' ((ValidationResponse.mk false "Input passed all security checks"
            (some "hi") 0.95).blocked = true ∧
          (ValidationResponse.mk false "Input passed all security checks"
            (some "hi") 0.95).sanitizedOutput = none)
         ((ValidationResponse.mk false "Input passed all security checks"
            (some "hi") 0.95).blocked = false ∧
          (ValidationResponse.mk false "Input passed all security checks"
            (some "hi") 0.95).sanitizedOutput ≠ none) :=
  C1_verdict_exclusive initState ⟨"u", "hi", "Prompt Injection"⟩ _ rfl

/-- Claim C2, counterexample: with a prior counter of `MAX_REQUESTS` for
identity `u`, an empty-input call is rejected with the quota error rather
than the empty-input verdict, and the counter is incremented, because
`check_rate_limit` runs before the empty-input check. -/
theorem C2_counterexample :
    (validate_input (fun v => if v = "u" then MAX_REQUESTS else 0)
        ⟨"u", "", "Prompt Injection"⟩).2 = VResult.error 429 "Too many requests" ∧
    (validate_input (fun v => if v = "u" then MAX_REQUESTS else 0)
        ⟨"u", "", "Prompt Injection"⟩).1 "u" = MAX_REQUESTS + 1 :=
  ⟨by decide, by decide⟩

/-- Claim C2, amended: an accepted-category call whose input is empty after
trimming first increments the identity's counter and checks the rate limit;
only when the incremented counter does not exceed `MAX_REQUESTS` does it
return the verdict with blocked false, reason "Empty input", empty sanitized
output and confidence 0, bypassing both classifiers; otherwise it is
rejected with the quota error. -/
theorem C2_empty_input (st : RateState) (u inp : String) (hb : blank inp = true) :
    (validate_input st ⟨u, inp, "Prompt Injection"⟩).1 u = st u + 1 ∧
    (MAX_REQUESTS < st u + 1 →
      (validate_input st ⟨u, inp, "Prompt Injection"⟩).2 =
        VResult.error 429 "Too many requests") ∧
    (st u + 1 ≤ MAX_REQUESTS →
      (validate_input st ⟨u, inp, "Prompt Injection"⟩).2 =
        VResult.ok ⟨false, "Empty input", some "", 0.0⟩) := by
  rw [validate_eq]
  dsimp only
  refine ⟨if_pos rfl, fun hr => ?_, fun hr => ?_⟩
  · rw [if_pos hr]
  · rw [if_neg (by omega), if_pos hb]

theorem C2_witness :
    (validate_input initState ⟨"u", " \t ", "Prompt Injection"⟩).1 "u" = 1 ∧
    (validate_input initState ⟨"u", " \t ", "Prompt Injection"⟩).2 =
      VResult.ok ⟨false, "Empty input", some "", 0.0⟩ :=
  ⟨(C2_empty_input initState "u" " \t " (by decide)).1,
   (C2_empty_input initState "u" " \t " (by decide)).2.2 (by decide)⟩

/-- Claim C3, counterexample: the sanitizer is not idempotent, because the
escape step runs again on already-escaped output; on the input consisting of
one ampersand the first pass yields five characters and the second pass
escapes the introduced ampersand again. -/
theorem C3_counterexample :
    sanitize_output (sanitize_output "&") ≠ sanitize_output "&" := by decide

/-- Claim C3, amended: the sanitizer is idempotent exactly on the strings
containing none of the five characters `html.escape` rewrites; on any string
containing one of them, re-sanitizing re-escapes the output and changes it. -/
theorem C3_sanitize_idempotent_escape_free (s : String) :
    sanitize_output (sanitize_output s) = sanitize_output s ↔
      ∀ c ∈ s.data, c ∉ escapable := by
  constructor
  · intro hid
    by_contra hc
    push_neg at hc
    obtain ⟨c, hcs, hcesc⟩ := hc
    have hamp : '&' ∈ htmlEscapeList s.data :=
      amp_mem_htmlEscapeList s.data c hcs hcesc
    have hgt : (htmlEscapeList s.data).length <
        (htmlEscapeList (htmlEscapeList s.data)).length :=
      htmlEscapeList_length_gt _ hamp
    rw [sanitize_eq_htmlEscape, sanitize_eq_htmlEscape] at hid
    have hlen := congrArg (fun t => t.data.length) hid
    simp only [htmlEscape] at hlen
    omega
  · intro h
    have h1 : sanitize_output s = s := by
      rw [sanitize_eq_htmlEscape]
      obtain ⟨l⟩ := s
      show (⟨htmlEscapeList l⟩ : String) = ⟨l⟩
      rw [htmlEscapeList_id l h]
    rw [h1]
    exact h1

theorem C3_witness :
    sanitize_output (sanitize_output "hello") = sanitize_output "hello" :=
  (C3_sanitize_idempotent_escape_free "hello").mpr (by decide)

/-- Claim C4, counterexample: on the input "jailbreak" the classifier blocks
with one pattern matched, but its reason string is capitalized
"Prompt injection attempt detected", not the claimed all-lowercase one. -/
theorem C4_counterexample :
    0 < countInjectionMatches "jailbreak" ∧
    (detect_prompt_injection "jailbreak").1 = true ∧
    (detect_prompt_injection "jailbreak").2.2 ≠ "prompt injection attempt detected" :=
  ⟨by decide, by decide, by decide⟩

/-- Claim C4, amended: the injection classifier counts matches of every
pattern in the fixed rule list against the lowercased input; with zero
matches it returns not-blocked with confidence 0, and with m matches it
returns blocked with confidence min(1, 0.9 + m * 0.03) and reason
"Prompt injection attempt detected" (capitalized as in the code). -/
theorem C4_injection_classifier (text : String) :
    (countInjectionMatches text = 0 →
      detect_prompt_injection text = (false, 0.0, "No prompt injection detected")) ∧
    (0 < countInjectionMatches text →
      detect_prompt_injection text =
        (true, min 1.0 (0.9 + (countInjectionMatches text : ℚ) * 0.03),
         "Prompt injection attempt detected")) := by
  constructor
  · intro h0
    rw [detect_pi_eq, if_neg (by omega)]
  · intro hpos
    rw [detect_pi_eq, if_pos hpos]

theorem C4_witness :
    detect_prompt_injection "jailbreak" =
      (true, min 1.0 (0.9 + (countInjectionMatches "jailbreak" : ℚ) * 0.03),
       "Prompt injection attempt detected") :=
  (C4_injection_classifier "jailbreak").2 (by decide)

/-- Claim C5, counterexample: on the spam scenario input the classifier
blocks, but its reason string is capitalized "Spam patterns detected", not
the claimed all-lowercase one. -/
theorem C5_counterexample :
    (detect_spam spamScenario).1 = true ∧
    (detect_spam spamScenario).2.2 ≠ "spam patterns detected" :=
  ⟨by decide, by decide⟩

/-- Claim C5, amended: the spam classifier counts how many of the fixed
keywords occur case-insensitively in the input and blocks exactly when more
than one is present, with confidence min(1, 0.75 + m * 0.05) and reason
"Spam patterns detected" (capitalized as in the code); the scenario input
contains 4 spam keywords and no injection pattern and yields a blocked
verdict with that reason. -/
theorem C5_spam_classifier :
    (∀ text, 1 < countSpamMatches text →
      detect_spam text =
        (true, min 1.0 (0.75 + (countSpamMatches text : ℚ) * 0.05),
         "Spam patterns detected")) ∧
    (∀ text, countSpamMatches text ≤ 1 →
      detect_spam text = (false, 0.0, "No spam detected")) ∧
    countSpamMatches spamScenario = 4 ∧
    countInjectionMatches spamScenario = 0 ∧
    (∀ (st : RateState) (u : String), st u < MAX_REQUESTS →
      (validate_input st ⟨u, spamScenario, "Prompt Injection"⟩).2 =
        VResult.ok ⟨true, "Spam patterns detected", none,
          roundTo2 (detect_spam spamScenario).2.1⟩) := by
  refine ⟨fun text ht => ?_, fun text ht => ?_, by decide, by decide,
    fun st u hrate => ?_⟩
  · rw [detect_spam_eq, if_pos ht]
  · rw [detect_spam_eq, if_neg (by omega)]
  · rw [validate_eq]
    dsimp only
    rw [if_neg (by omega), if_neg (by decide), if_neg (by decide), if_pos (by decide),
      detect_spam_reason_of_blocked spamScenario (by decide)]

theorem C5_witness :
    (validate_input initState ⟨"u", spamScenario, "Prompt Injection"⟩).2 =
      VResult.ok ⟨true, "Spam patterns detected", none,
        roundTo2 (detect_spam spamScenario).2.1⟩ :=
  C5_spam_classifier.2.2.2.2 initState "u" (by decide)

/-- Claim C6: on an input blocked by both classifiers (and not rate-limited),
the verdict carries the injection reason, which differs from the spam
classifier's blocked reason: the injection classifier runs first and
short-circuits the spam check. -/
theorem C6_injection_priority (st : RateState) (u text : String)
    (hpi : (detect_prompt_injection text).1 = true)
    (hsp : (detect_spam text).1 = true)
    (hrate : st u < MAX_REQUESTS) :
    (validate_input st ⟨u, text, "Prompt Injection"⟩).2 =
      VResult.ok ⟨true, "Prompt injection attempt detected", none,
        roundTo2 (detect_prompt_injection text).2.1⟩ ∧
    (detect_spam text).2.2 = "Spam patterns detected" ∧
    "Prompt injection attempt detected" ≠ "Spam patterns detected" := by
  refine ⟨?_, detect_spam_reason_of_blocked text hsp, by decide⟩
  rw [validate_eq]
  dsimp only
  rw [if_neg (by omega), if_neg (by simp [pi_blocked_not_blank text hpi]),
    if_pos hpi, detect_pi_reason_of_blocked text hpi]

theorem C6_witness :
    (validate_input initState ⟨"u", "jailbreak bitcoin lottery", "Prompt Injection"⟩).2 =
      VResult.ok ⟨true, "Prompt injection attempt detected", none,
        roundTo2 (detect_prompt_injection "jailbreak bitcoin lottery").2.1⟩ ∧
    (detect_spam "jailbreak bitcoin lottery").2.2 = "Spam patterns detected" ∧
    "Prompt injection attempt detected" ≠ "Spam patterns detected" :=
  C6_injection_priority initState "u" "jailbreak bitcoin lottery"
    (by decide) (by decide) (by decide)

/-- Claim C7: for any identity the counter after n accepted-category calls
equals n; a call made with prior counter MAX_REQUESTS - 1 (the 20th call) is
not rate-rejected, while any call made with prior counter at least
MAX_REQUESTS (the 21st and later) is rejected with the quota error whatever
its input text, and the counter is still incremented on the rejected call. -/
theorem C7_rate_limiter (u : String) :
    (∀ inps : List String, runCalls u inps initState u = inps.length) ∧
    (∀ (st : RateState) (inp : String), st u = MAX_REQUESTS - 1 →
      (validate_input st ⟨u, inp, "Prompt Injection"⟩).2 ≠
        VResult.error 429 "Too many requests") ∧
    (∀ (st : RateState) (inp : String), MAX_REQUESTS ≤ st u →
      (validate_input st ⟨u, inp, "Prompt Injection"⟩).2 =
        VResult.error 429 "Too many requests" ∧
      (validate_input st ⟨u, inp, "Prompt Injection"⟩).1 u = st u + 1) := by
  refine ⟨fun inps => ?_, fun st inp h19 => ?_, fun st inp hge => ?_⟩
  · rw [runCalls_counter]
    simp [initState]
  · rw [validate_eq]
    dsimp only
    rw [if_neg (by rw [h19]; decide)]
    repeat' split
    all_goals simp
  · rw [validate_eq]
    dsimp only
    exact ⟨by rw [if_pos (Nat.lt_succ_of_le hge)], if_pos rfl⟩

theorem C7_witness :
    runCalls "u" ["a", "b", "c"] initState "u" = 3 ∧
    (validate_input (fun v => if v = "u" then MAX_REQUESTS - 1 else 0)
        ⟨"u", "x", "Prompt Injection"⟩).2 ≠ VResult.error 429 "Too many requests" ∧
    (validate_input (fun v => if v = "u" then MAX_REQUESTS else 0)
        ⟨"u", "y", "Prompt Injection"⟩).2 = VResult.error 429 "Too many requests" ∧
    (validate_input (fun v => if v = "u" then MAX_REQUESTS else 0)
        ⟨"u", "y", "Prompt Injection"⟩).1 "u" = MAX_REQUESTS + 1 :=
  ⟨(C7_rate_limiter "u").1 ["a", "b", "c"],
   (C7_rate_limiter "u").2.1 _ "x" (by decide),
   ((C7_rate_limiter "u").2.2 _ "y" (by decide)).1,
   ((C7_rate_limiter "u").2.2 _ "y" (by decide)).2⟩

/-- Claim C8: a call whose declared category differs from "Prompt Injection"
is rejected with the invalid-category error before any state mutation or
classification: the rate-limiter state is returned unchanged. -/
theorem C8_invalid_category (st : RateState) (req : ValidationRequest)
    (h : req.category ≠ "Prompt Injection") :
    validate_input st req = (st, VResult.error 400 "Invalid category") ∧
    ∀ u, (validate_input st req).1 u = st u := by
  have he := validate_cat st req h
  exact ⟨he, fun u => by rw [he]⟩

theorem C8_witness :
    validate_input initState ⟨"u", "jailbreak", "Not Prompt Injection"⟩ =
      (initState, VResult.error 400 "Invalid category") :=
  (C8_invalid_category initState ⟨"u", "jailbreak", "Not Prompt Injection"⟩
    (by decide)).1

/-- Claim C9: the XSS scenario input passes both classifiers and yields a
not-blocked verdict whose sanitized output is the HTML-escape of the input,
contains no script tag opener, and equals the expected escaped text. -/
theorem C9_xss_scenario (st : RateState) (u : String)
    (hrate : st u < MAX_REQUESTS) :
    (validate_input st ⟨u, xssScenario, "Prompt Injection"⟩).2 =
      VResult.ok ⟨false, "Input passed all security checks",
        some (htmlEscape xssScenario), 0.95⟩ ∧
    htmlEscape xssScenario = "&lt;script&gt;alert(1)&lt;/script&gt;Hello" ∧
    containsSub "<script".data (htmlEscape xssScenario).data = false := by
  refine ⟨?_, by decide, by decide⟩
  rw [validate_eq]
  dsimp only
  rw [if_neg (by omega), if_neg (by decide), if_neg (by decide), if_neg (by decide),
    sanitize_eq_htmlEscape]

theorem C9_witness :
    (validate_input initState ⟨"u", xssScenario, "Prompt Injection"⟩).2 =
      VResult.ok ⟨false, "Input passed all security checks",
        some (htmlEscape xssScenario), 0.95⟩ ∧
    htmlEscape xssScenario = "&lt;script&gt;alert(1)&lt;/script&gt;Hello" ∧
    containsSub "<script".data (htmlEscape xssScenario).data = false :=
  C9_xss_scenario initState "u" (by decide)

/-- Claim C10: every blocked verdict reports the blocking classifier's
confidence rounded to two decimals, the all-clear verdict reports the
constant 0.95, and the empty-input verdict the constant 0. -/
theorem C10_confidence_reporting (st : RateState) (req : ValidationRequest)
    (r : ValidationResponse) (h : (validate_input st req).2 = VResult.ok r) :
    (r.blocked = true →
      r.confidence = roundTo2 (if (detect_prompt_injection req.input).1 then
        (detect_prompt_injection req.input).2.1 else (detect_spam req.input).2.1)) ∧
    (r.reason = "Input passed all security checks" → r.confidence = 0.95) ∧
    (r.reason = "Empty input" → r.confidence = 0.0) := by
  rcases validate_ok_cases st req r h with
    ⟨hb, rfl⟩ | ⟨hpi, rfl⟩ | ⟨hpi, hsp, rfl⟩ | ⟨hpi, hsp, hb, rfl⟩
  · exact ⟨fun hx => by simp at hx, ⟨fun hx => by simp at hx, fun _ => rfl⟩⟩
  · exact ⟨fun _ => by rw [if_pos hpi], ⟨fun hx => by simp at hx,
      fun hx => by simp at hx⟩⟩
  · exact ⟨fun _ => by rw [if_neg (by simp [hpi])], ⟨fun hx => by simp at hx,
      fun hx => by simp at hx⟩⟩
  · exact ⟨fun hx => by simp at hx, ⟨fun _ => rfl, fun hx => by simp at hx⟩⟩

theorem C10_witness :
    ((ValidationResponse.mk true "Prompt injection attempt detected" none
        (roundTo2 (detect_prompt_injection "jailbreak").2.1)).blocked = true →
      (ValidationResponse.mk true "Prompt injection attempt detected" none
        (roundTo2 (detect_prompt_injection "jailbreak").2.1)).confidence =
        roundTo2 (if (detect_prompt_injection "jailbreak").1 then
          (detect_prompt_injection "jailbreak").2.1 else (detect_spam "jailbreak").2.1)) ∧
    ((ValidationResponse.mk true "Prompt injection attempt detected" none
        (roundTo2 (detect_prompt_injection "jailbreak").2.1)).reason =
        "Input passed all security checks" →
      (ValidationResponse.mk true "Prompt injection attempt detected" none
        (roundTo2 (detect_prompt_injection "jailbreak").2.1)).confidence = 0.95) ∧
    ((ValidationResponse.mk true "Prompt injection attempt detected" none
        (roundTo2 (detect_prompt_injection "jailbreak").2.1)).reason = "Empty input" →
      (ValidationResponse.mk true "Prompt injection attempt detected" none
        (roundTo2 (detect_prompt_injection "jailbreak").2.1)).confidence = 0.0) :=
  C10_confidence_reporting initState ⟨"u", "jailbreak", "Prompt Injection"⟩ _ rfl

end Q27
